import Mathlib

/-!
# Verification of the speech-writer action layer

A shallow embedding of `src/actions/index.ts` (seven Astro action handlers
over the two tables of `db/tables.ts`) together with proofs of the
specification's claims about it.

Modelling conventions:
- the relational store is a pair of lists of rows, in storage order;
- `db.select().from(T).where(c)` is `List.filter`; destructuring the first
  row (`const [x] = ...`) is `List.head?`;
- `Date` values are naturals (milliseconds since the epoch); each call of
  `new Date()` in the source is a `now` parameter of the embedded operation;
- `crypto.randomUUID()` is `randomUUID r` for a random seed `r`;
- the zod input schema of each action is a structure (absent optional field
  = `none`) plus a boolean validity predicate; Astro parses the input with
  the schema before the handler runs, and a parse failure surfaces as an
  `ActionError` with code `BAD_REQUEST`;
- a thrown `ActionError` is the `Except.error` of its code; state-changing
  handlers return the payload together with the new store.
-/

namespace SpeechWriter

/-- The `ActionError` codes raised by the source file: `UNAUTHORIZED` and
`NOT_FOUND` are thrown explicitly; `BAD_REQUEST` is the code Astro gives an
input that fails the zod schema. -/
inductive ErrorCode where
  | UNAUTHORIZED
  | NOT_FOUND
  | BAD_REQUEST
deriving DecidableEq, Repr

/-- The authenticated caller found in `context.locals.user`. -/
structure User where
  id : String
deriving DecidableEq, Repr

/-- A row of the `Speeches` table (`db/tables.ts`). -/
structure Speech where
  id : String
  userId : String
  title : String
  occasion : Option String
  audience : Option String
  language : Option String
  notes : Option String
  createdAt : Nat
  updatedAt : Nat
deriving DecidableEq, Repr

/-- A row of the `SpeechVersions` table (`db/tables.ts`). -/
structure SpeechVersion where
  id : String
  speechId : String
  versionLabel : Option String
  tone : Option String
  targetDurationMinutes : Option Int
  scriptText : String
  isPreferred : Bool
  createdAt : Nat
deriving DecidableEq, Repr

/-- The relational store: both tables, rows in storage order. -/
structure Store where
  speeches : List Speech
  speechVersions : List SpeechVersion
deriving DecidableEq, Repr

/-- `requireUser(context)`: throws `UNAUTHORIZED` when `context.locals.user`
is absent, returns the user otherwise. -/
def requireUser (user? : Option User) : Except ErrorCode User :=
  match user? with
  | none => .error .UNAUTHORIZED
  | some u => .ok u

/-- `getOwnedSpeech(speechId, userId)`: selects the rows with
`id = speechId && userId = userId`, takes the first, throws `NOT_FOUND` when
there is none.  Read-only: the store is not part of the result. -/
def getOwnedSpeech (st : Store) (speechId userId : String) :
    Except ErrorCode Speech :=
  match (st.speeches.filter
      (fun s => s.id == speechId && s.userId == userId)).head? with
  | none => .error .NOT_FOUND
  | some s => .ok s

/-- `getOwnedSpeechVersion(versionId, speechId, userId)`: first
`getOwnedSpeech(speechId, userId)`, then selects the versions with
`id = versionId && speechId = speechId`, takes the first, throws `NOT_FOUND`
when there is none.  Read-only. -/
def getOwnedSpeechVersion (st : Store) (versionId speechId userId : String) :
    Except ErrorCode SpeechVersion := do
  let _ ← getOwnedSpeech st speechId userId
  match (st.speechVersions.filter
      (fun v => v.id == versionId && v.speechId == speechId)).head? with
  | none => .error .NOT_FOUND
  | some v => .ok v

/-- A lowercase hexadecimal digit. -/
def hexChar (n : Nat) : Char :=
  if n < 10 then Char.ofNat (48 + n) else Char.ofNat (87 + n)

/-- `n` written as exactly `len` lowercase hexadecimal digits. -/
def hexStr (len n : Nat) : String :=
  String.mk ((List.range len).map (fun i => hexChar (n / 16 ^ (len - 1 - i) % 16)))

/-- Modelled from the spec: the "auto-generated identifier facility"
(`crypto.randomUUID()`, a platform API outside this repository) returns an
RFC 4122 version-4 UUID `xxxxxxxx-xxxx-4xxx-yxxx-xxxxxxxxxxxx`; the random
bits are drawn here from the seed `r`. -/
def randomUUID (r : Nat) : String :=
  hexStr 8 (r % 16 ^ 8) ++ "-" ++
  hexStr 4 (r / 16 ^ 8 % 16 ^ 4) ++ "-" ++
  hexStr 4 (16 ^ 3 * 4 + r / 16 ^ 12 % 16 ^ 3) ++ "-" ++
  hexStr 4 (16 ^ 3 * (8 + r / 16 ^ 15 % 4) + r / 16 ^ 17 % 16 ^ 3) ++ "-" ++
  hexStr 12 (r / 16 ^ 20 % 16 ^ 12)

/-- The result shape `{ items, total }` of the two list actions. -/
structure ListResult (α : Type) where
  items : List α
  total : Nat
deriving DecidableEq, Repr

/-! ## createSpeech -/

/-- The zod input of `createSpeech`; an optional field absent from the call
is `none`. -/
structure CreateSpeechInput where
  title : String
  occasion : Option String := none
  audience : Option String := none
  language : Option String := none
  notes : Option String := none
deriving Repr

/-- The `createSpeech` schema: `title: z.string().min(1)`, the rest optional
strings. -/
def validCreateSpeech (i : CreateSpeechInput) : Bool :=
  1 ≤ i.title.length

/-- `createSpeech`: schema check, `requireUser`, one insert of a fresh row
with `id = randomUUID r`, `createdAt = updatedAt = now`, `userId` bound to
the caller; returns the inserted row. -/
def createSpeech (st : Store) (user? : Option User) (r now : Nat)
    (input : CreateSpeechInput) : Except ErrorCode (Speech × Store) :=
  if !validCreateSpeech input then .error .BAD_REQUEST else do
  let user ← requireUser user?
  let speech : Speech :=
    { id := randomUUID r
      userId := user.id
      title := input.title
      occasion := input.occasion
      audience := input.audience
      language := input.language
      notes := input.notes
      createdAt := now
      updatedAt := now }
  .ok (speech, { st with speeches := st.speeches ++ [speech] })

/-! ## updateSpeech -/

/-- The zod input of `updateSpeech`. -/
structure UpdateSpeechInput where
  id : String
  title : Option String := none
  occasion : Option String := none
  audience : Option String := none
  language : Option String := none
  notes : Option String := none
deriving Repr

/-- The `updateSpeech` schema: `id` and a present `title` must be non-empty,
and the `.refine` demands at least one of the five mutable fields. -/
def validUpdateSpeech (i : UpdateSpeechInput) : Bool :=
  1 ≤ i.id.length &&
  (match i.title with | none => true | some t => 1 ≤ t.length) &&
  (i.title.isSome || i.occasion.isSome || i.audience.isSome ||
    i.language.isSome || i.notes.isSome)

/-- The `.set({...})` object of `updateSpeech`: each mutable field is spread
in only when present in the input; `updatedAt` is always set to `now`. -/
def applySpeechSet (input : UpdateSpeechInput) (now : Nat) (s : Speech) :
    Speech :=
  { s with
    title := match input.title with | some t => t | none => s.title
    occasion := match input.occasion with | some v => some v | none => s.occasion
    audience := match input.audience with | some v => some v | none => s.audience
    language := match input.language with | some v => some v | none => s.language
    notes := match input.notes with | some v => some v | none => s.notes
    updatedAt := now }

/-- `updateSpeech`: schema check, `requireUser`, `getOwnedSpeech`, one update
of every row with `id = input.id`, returning the first updated row. -/
def updateSpeech (st : Store) (user? : Option User) (now : Nat)
    (input : UpdateSpeechInput) : Except ErrorCode (Option Speech × Store) :=
  if !validUpdateSpeech input then .error .BAD_REQUEST else do
  let user ← requireUser user?
  let _ ← getOwnedSpeech st input.id user.id
  let speeches := st.speeches.map
    (fun s => if s.id == input.id then applySpeechSet input now s else s)
  let returned := (speeches.filter (fun s => s.id == input.id)).head?
  .ok (returned, { st with speeches := speeches })

/-! ## listSpeeches -/

/-- `listSpeeches`: `requireUser`, then one select of the rows with
`userId = user.id`; the input schema `z.object({}).optional()` accepts
anything, so it is not modelled. -/
def listSpeeches (st : Store) (user? : Option User) :
    Except ErrorCode (ListResult Speech × Store) := do
  let user ← requireUser user?
  let speeches := st.speeches.filter (fun s => s.userId == user.id)
  .ok ({ items := speeches, total := speeches.length }, st)

/-! ## createSpeechVersion -/

/-- The zod input of `createSpeechVersion`. -/
structure CreateSpeechVersionInput where
  speechId : String
  versionLabel : Option String := none
  tone : Option String := none
  targetDurationMinutes : Option Int := none
  scriptText : String
  isPreferred : Option Bool := none
deriving Repr

/-- The `createSpeechVersion` schema: `speechId` and `scriptText` non-empty. -/
def validCreateSpeechVersion (i : CreateSpeechVersionInput) : Bool :=
  1 ≤ i.speechId.length && 1 ≤ i.scriptText.length

/-- `createSpeechVersion`: schema check, `requireUser`, `getOwnedSpeech` on
the parent, one insert with a fresh id, `isPreferred ?? false` and
`createdAt = now`; returns the inserted row. -/
def createSpeechVersion (st : Store) (user? : Option User) (r now : Nat)
    (input : CreateSpeechVersionInput) :
    Except ErrorCode (SpeechVersion × Store) :=
  if !validCreateSpeechVersion input then .error .BAD_REQUEST else do
  let user ← requireUser user?
  let _ ← getOwnedSpeech st input.speechId user.id
  let version : SpeechVersion :=
    { id := randomUUID r
      speechId := input.speechId
      versionLabel := input.versionLabel
      tone := input.tone
      targetDurationMinutes := input.targetDurationMinutes
      scriptText := input.scriptText
      isPreferred := input.isPreferred.getD false
      createdAt := now }
  .ok (version, { st with speechVersions := st.speechVersions ++ [version] })

/-! ## updateSpeechVersion -/

/-- The zod input of `updateSpeechVersion`; note `scriptText` is optional
here with no minimum length. -/
structure UpdateSpeechVersionInput where
  id : String
  speechId : String
  versionLabel : Option String := none
  tone : Option String := none
  targetDurationMinutes : Option Int := none
  scriptText : Option String := none
  isPreferred : Option Bool := none
deriving Repr

/-- The `updateSpeechVersion` schema: `id` and `speechId` non-empty, and the
`.refine` demands at least one of the five mutable fields. -/
def validUpdateSpeechVersion (i : UpdateSpeechVersionInput) : Bool :=
  1 ≤ i.id.length && 1 ≤ i.speechId.length &&
  (i.versionLabel.isSome || i.tone.isSome || i.targetDurationMinutes.isSome ||
    i.scriptText.isSome || i.isPreferred.isSome)

/-- The `.set({...})` object of `updateSpeechVersion`: each field spread in
only when present; no timestamp is touched. -/
def applyVersionSet (input : UpdateSpeechVersionInput) (v : SpeechVersion) :
    SpeechVersion :=
  { v with
    versionLabel :=
      match input.versionLabel with | some x => some x | none => v.versionLabel
    tone := match input.tone with | some x => some x | none => v.tone
    targetDurationMinutes :=
      match input.targetDurationMinutes with
      | some x => some x | none => v.targetDurationMinutes
    scriptText := match input.scriptText with | some x => x | none => v.scriptText
    isPreferred := match input.isPreferred with | some x => x | none => v.isPreferred }

/-- `updateSpeechVersion`: schema check, `requireUser`,
`getOwnedSpeechVersion`, one update of every version with `id = input.id`,
returning the first updated row. -/
def updateSpeechVersion (st : Store) (user? : Option User)
    (input : UpdateSpeechVersionInput) :
    Except ErrorCode (Option SpeechVersion × Store) :=
  if !validUpdateSpeechVersion input then .error .BAD_REQUEST else do
  let user ← requireUser user?
  let _ ← getOwnedSpeechVersion st input.id input.speechId user.id
  let versions := st.speechVersions.map
    (fun v => if v.id == input.id then applyVersionSet input v else v)
  let returned := (versions.filter (fun v => v.id == input.id)).head?
  .ok (returned, { st with speechVersions := versions })

/-! ## deleteSpeechVersion -/

/-- The zod input of `deleteSpeechVersion`. -/
structure DeleteSpeechVersionInput where
  id : String
  speechId : String
deriving Repr

/-- The `deleteSpeechVersion` schema: both ids non-empty. -/
def validDeleteSpeechVersion (i : DeleteSpeechVersionInput) : Bool :=
  1 ≤ i.id.length && 1 ≤ i.speechId.length

/-- `deleteSpeechVersion`: schema check, `requireUser`,
`getOwnedSpeechVersion`, then one delete of the rows with `id = input.id`;
throws `NOT_FOUND` when `rowsAffected` is zero (in which case the delete
removed nothing and the store is unchanged). -/
def deleteSpeechVersion (st : Store) (user? : Option User)
    (input : DeleteSpeechVersionInput) : Except ErrorCode (Unit × Store) :=
  if !validDeleteSpeechVersion input then .error .BAD_REQUEST else do
  let user ← requireUser user?
  let _ ← getOwnedSpeechVersion st input.id input.speechId user.id
  let rowsAffected := (st.speechVersions.filter (fun v => v.id == input.id)).length
  let remaining := st.speechVersions.filter (fun v => !(v.id == input.id))
  if rowsAffected = 0 then .error .NOT_FOUND
  else .ok ((), { st with speechVersions := remaining })

/-! ## listSpeechVersions -/

/-- The zod input of `listSpeechVersions`; `preferredOnly` has a schema
default of `false`, applied below when absent. -/
structure ListSpeechVersionsInput where
  speechId : String
  preferredOnly : Option Bool := none
deriving Repr

/-- The `listSpeechVersions` schema: `speechId` non-empty. -/
def validListSpeechVersions (i : ListSpeechVersionsInput) : Bool :=
  1 ≤ i.speechId.length

/-- `listSpeechVersions`: schema check, `requireUser`, `getOwnedSpeech`,
then one select filtered on `speechId`, and additionally on
`isPreferred = true` when `preferredOnly` holds. -/
def listSpeechVersions (st : Store) (user? : Option User)
    (input : ListSpeechVersionsInput) :
    Except ErrorCode (ListResult SpeechVersion × Store) :=
  if !validListSpeechVersions input then .error .BAD_REQUEST else do
  let user ← requireUser user?
  let _ ← getOwnedSpeech st input.speechId user.id
  let preferredOnly := input.preferredOnly.getD false
  let versions := st.speechVersions.filter (fun v =>
    if preferredOnly then v.speechId == input.speechId && v.isPreferred == true
    else v.speechId == input.speechId)
  .ok ({ items := versions, total := versions.length }, st)

/-! ## Helper lemmas about the ownership guard -/

theorem getOwnedSpeech_eq_find (st : Store) (sid uid : String) :
    getOwnedSpeech st sid uid =
      match st.speeches.find? (fun s => s.id == sid && s.userId == uid) with
      | none => .error .NOT_FOUND
      | some s => .ok s := by
  unfold getOwnedSpeech
  rw [List.filter_head?]

theorem getOwnedSpeech_notFound_iff (st : Store) (sid uid : String) :
    getOwnedSpeech st sid uid = .error .NOT_FOUND ↔
      ∀ s ∈ st.speeches, ¬(s.id = sid ∧ s.userId = uid) := by
  rw [getOwnedSpeech_eq_find]
  rcases hh : st.speeches.find? (fun s => s.id == sid && s.userId == uid)
      with _ | s
  · rw [hh]
    constructor
    · intro _ s hs hab
      exact List.find?_eq_none.mp hh s hs (by simp [hab.1, hab.2])
    · intro _
      rfl
  · rw [hh]
    have hp : s.id = sid ∧ s.userId = uid := by simpa using List.find?_some hh
    have hmem := List.mem_of_find?_eq_some hh
    constructor
    · intro habs
      exact absurd habs (by simp)
    · intro hall
      exact absurd hp (hall s hmem)

theorem getOwnedSpeech_ok (st : Store) (sid uid : String) (s : Speech)
    (h : getOwnedSpeech st sid uid = .ok s) :
    s ∈ st.speeches ∧ s.id = sid ∧ s.userId = uid := by
  rw [getOwnedSpeech_eq_find] at h
  rcases hh : st.speeches.find? (fun t => t.id == sid && t.userId == uid)
      with _ | t
  · rw [hh] at h
    exact absurd h (by simp)
  · rw [hh] at h
    have hts : t = s := by simpa using h
    have hp : t.id = sid ∧ t.userId = uid := by simpa using List.find?_some hh
    have hmem := List.mem_of_find?_eq_some hh
    exact hts ▸ ⟨hmem, hp.1, hp.2⟩

theorem getOwnedSpeech_error_elim (st : Store) (sid uid : String)
    (e : ErrorCode) (h : getOwnedSpeech st sid uid = .error e) :
    e = .NOT_FOUND := by
  rw [getOwnedSpeech_eq_find] at h
  rcases hh : st.speeches.find? (fun t => t.id == sid && t.userId == uid)
      with _ | t
  · rw [hh] at h
    simpa using h.symm
  · rw [hh] at h
    exact absurd h (by simp)

theorem getOwnedSpeech_ok_iff (st : Store) (sid uid : String) :
    (∃ s, getOwnedSpeech st sid uid = .ok s) ↔
      ∃ s ∈ st.speeches, s.id = sid ∧ s.userId = uid := by
  constructor
  · rintro ⟨s, hs⟩
    obtain ⟨h1, h2, h3⟩ := getOwnedSpeech_ok st sid uid s hs
    exact ⟨s, h1, h2, h3⟩
  · rintro ⟨s, hmem, hid, huid⟩
    rcases hg : getOwnedSpeech st sid uid with e | t
    · have : e = .NOT_FOUND := getOwnedSpeech_error_elim st sid uid e hg
      subst this
      rw [getOwnedSpeech_notFound_iff] at hg
      exact absurd ⟨hid, huid⟩ (hg s hmem)
    · exact ⟨t, rfl⟩

theorem getOwnedSpeechVersion_eq_find (st : Store) (vid sid uid : String) :
    getOwnedSpeechVersion st vid sid uid =
      match getOwnedSpeech st sid uid with
      | .error e => .error e
      | .ok _ =>
        match st.speechVersions.find?
            (fun v => v.id == vid && v.speechId == sid) with
        | none => .error .NOT_FOUND
        | some v => .ok v := by
  unfold getOwnedSpeechVersion
  rcases hg : getOwnedSpeech st sid uid with e | s
  · rfl
  · rw [List.filter_head?]
    rfl

theorem getOwnedSpeechVersion_parent_error (st : Store) (vid sid uid : String)
    (e : ErrorCode) (h : getOwnedSpeech st sid uid = .error e) :
    getOwnedSpeechVersion st vid sid uid = .error e := by
  rw [getOwnedSpeechVersion_eq_find, h]

theorem getOwnedSpeechVersion_notFound_iff (st : Store) (vid sid uid : String)
    (hp : ∃ s, getOwnedSpeech st sid uid = .ok s) :
    getOwnedSpeechVersion st vid sid uid = .error .NOT_FOUND ↔
      ∀ v ∈ st.speechVersions, ¬(v.id = vid ∧ v.speechId = sid) := by
  obtain ⟨s, hs⟩ := hp
  rw [getOwnedSpeechVersion_eq_find, hs]
  rcases hh : st.speechVersions.find?
      (fun v => v.id == vid && v.speechId == sid) with _ | v
  · rw [hh]
    constructor
    · intro _ v hv hab
      exact List.find?_eq_none.mp hh v hv (by simp [hab.1, hab.2])
    · intro _
      rfl
  · rw [hh]
    have hpv : v.id = vid ∧ v.speechId = sid := by
      simpa using List.find?_some hh
    have hmem := List.mem_of_find?_eq_some hh
    constructor
    · intro habs
      exact absurd habs (by simp)
    · intro hall
      exact absurd hpv (hall v hmem)

theorem getOwnedSpeechVersion_ok (st : Store) (vid sid uid : String)
    (v : SpeechVersion) (h : getOwnedSpeechVersion st vid sid uid = .ok v) :
    v ∈ st.speechVersions ∧ v.id = vid ∧ v.speechId = sid := by
  rw [getOwnedSpeechVersion_eq_find] at h
  rcases hg : getOwnedSpeech st sid uid with e | s
  · rw [hg] at h
    exact absurd h (by simp)
  · rw [hg] at h
    rcases hh : st.speechVersions.find?
        (fun w => w.id == vid && w.speechId == sid) with _ | w
    · rw [hh] at h
      exact absurd h (by simp)
    · rw [hh] at h
      have hwv : w = v := by simpa using h
      have hpw : w.id = vid ∧ w.speechId = sid := by
        simpa using List.find?_some hh
      have hmem := List.mem_of_find?_eq_some hh
      exact hwv ▸ ⟨hmem, hpw.1, hpw.2⟩

theorem getOwnedSpeechVersion_ok_parent (st : Store) (vid sid uid : String)
    (v : SpeechVersion) (h : getOwnedSpeechVersion st vid sid uid = .ok v) :
    ∃ s, getOwnedSpeech st sid uid = .ok s := by
  rw [getOwnedSpeechVersion_eq_find] at h
  rcases hg : getOwnedSpeech st sid uid with e | s
  · rw [hg] at h
    exact absurd h (by simp)
  · exact ⟨s, rfl⟩

theorem getOwnedSpeechVersion_error_elim (st : Store) (vid sid uid : String)
    (e : ErrorCode) (h : getOwnedSpeechVersion st vid sid uid = .error e) :
    e = .NOT_FOUND := by
  rw [getOwnedSpeechVersion_eq_find] at h
  rcases hg : getOwnedSpeech st sid uid with e' | s
  · rw [hg] at h
    have : e' = e := by simpa using h
    exact this ▸ getOwnedSpeech_error_elim st sid uid e' hg
  · rw [hg] at h
    rcases hh : st.speechVersions.find?
        (fun w => w.id == vid && w.speechId == sid) with _ | w
    · rw [hh] at h
      simpa using h.symm
    · rw [hh] at h
      exact absurd h (by simp)

theorem getOwnedSpeechVersion_ok_iff (st : Store) (vid sid uid : String) :
    (∃ v, getOwnedSpeechVersion st vid sid uid = .ok v) ↔
      (∃ s ∈ st.speeches, s.id = sid ∧ s.userId = uid) ∧
        ∃ v ∈ st.speechVersions, v.id = vid ∧ v.speechId = sid := by
  constructor
  · rintro ⟨v, hv⟩
    obtain ⟨h1, h2, h3⟩ := getOwnedSpeechVersion_ok st vid sid uid v hv
    obtain ⟨s, hs⟩ := getOwnedSpeechVersion_ok_parent st vid sid uid v hv
    obtain ⟨hm, hid, huid⟩ := getOwnedSpeech_ok st sid uid s hs
    exact ⟨⟨s, hm, hid, huid⟩, v, h1, h2, h3⟩
  · rintro ⟨hs, v, hvm, hvid, hvsid⟩
    have hpar := (getOwnedSpeech_ok_iff st sid uid).mpr hs
    rcases hg : getOwnedSpeechVersion st vid sid uid with e | w
    · have : e = .NOT_FOUND :=
        getOwnedSpeechVersion_error_elim st vid sid uid e hg
      subst this
      rw [getOwnedSpeechVersion_notFound_iff st vid sid uid hpar] at hg
      exact absurd ⟨hvid, hvsid⟩ (hg v hvm)
    · exact ⟨w, rfl⟩

/-! ## The generated identifier is never empty -/

theorem hexStr_length (len n : Nat) : (hexStr len n).length = len := by
  simp [hexStr, String.length]

theorem randomUUID_length (r : Nat) : (randomUUID r).length = 36 := by
  simp [randomUUID, String.length_append, hexStr_length]
  rfl

theorem randomUUID_ne_empty (r : Nat) : randomUUID r ≠ "" := by
  intro h
  have := congrArg String.length h
  rw [randomUUID_length] at this
  simp at this

/-! ## Reduction lemmas: each action with a signed-in caller and a
schema-valid input computes to its handler body -/

theorem createSpeech_eq (st : Store) (u : User) (r now : Nat)
    (input : CreateSpeechInput) (hval : validCreateSpeech input = true) :
    createSpeech st (some u) r now input =
      (let speech : Speech :=
        { id := randomUUID r
          userId := u.id
          title := input.title
          occasion := input.occasion
          audience := input.audience
          language := input.language
          notes := input.notes
          createdAt := now
          updatedAt := now }
       .ok (speech, { st with speeches := st.speeches ++ [speech] })) := by
  unfold createSpeech
  rw [hval]
  rfl

theorem updateSpeech_eq (st : Store) (u : User) (now : Nat)
    (input : UpdateSpeechInput) (hval : validUpdateSpeech input = true) :
    updateSpeech st (some u) now input =
      match getOwnedSpeech st input.id u.id with
      | .error e => .error e
      | .ok _ =>
        (let speeches := st.speeches.map
          (fun s => if s.id == input.id then applySpeechSet input now s else s)
         .ok ((speeches.filter (fun s => s.id == input.id)).head?,
              { st with speeches := speeches })) := by
  unfold updateSpeech
  rw [hval]
  rcases hg : getOwnedSpeech st input.id u.id with e | s
  · show (getOwnedSpeech st input.id u.id >>= _) = _
    rw [hg]
    rfl
  · show (getOwnedSpeech st input.id u.id >>= _) = _
    rw [hg]
    rfl

theorem createSpeechVersion_eq (st : Store) (u : User) (r now : Nat)
    (input : CreateSpeechVersionInput)
    (hval : validCreateSpeechVersion input = true) :
    createSpeechVersion st (some u) r now input =
      match getOwnedSpeech st input.speechId u.id with
      | .error e => .error e
      | .ok _ =>
        (let version : SpeechVersion :=
          { id := randomUUID r
            speechId := input.speechId
            versionLabel := input.versionLabel
            tone := input.tone
            targetDurationMinutes := input.targetDurationMinutes
            scriptText := input.scriptText
            isPreferred := input.isPreferred.getD false
            createdAt := now }
         .ok (version,
              { st with speechVersions := st.speechVersions ++ [version] })) := by
  unfold createSpeechVersion
  rw [hval]
  rcases hg : getOwnedSpeech st input.speechId u.id with e | s
  · show (getOwnedSpeech st input.speechId u.id >>= _) = _
    rw [hg]
    rfl
  · show (getOwnedSpeech st input.speechId u.id >>= _) = _
    rw [hg]
    rfl

theorem updateSpeechVersion_eq (st : Store) (u : User)
    (input : UpdateSpeechVersionInput)
    (hval : validUpdateSpeechVersion input = true) :
    updateSpeechVersion st (some u) input =
      match getOwnedSpeechVersion st input.id input.speechId u.id with
      | .error e => .error e
      | .ok _ =>
        (let versions := st.speechVersions.map
          (fun v => if v.id == input.id then applyVersionSet input v else v)
         .ok ((versions.filter (fun v => v.id == input.id)).head?,
              { st with speechVersions := versions })) := by
  unfold updateSpeechVersion
  rw [hval]
  rcases hg : getOwnedSpeechVersion st input.id input.speechId u.id with e | v
  · show (getOwnedSpeechVersion st input.id input.speechId u.id >>= _) = _
    rw [hg]
    rfl
  · show (getOwnedSpeechVersion st input.id input.speechId u.id >>= _) = _
    rw [hg]
    rfl

theorem deleteSpeechVersion_eq (st : Store) (u : User)
    (input : DeleteSpeechVersionInput)
    (hval : validDeleteSpeechVersion input = true) :
    deleteSpeechVersion st (some u) input =
      match getOwnedSpeechVersion st input.id input.speechId u.id with
      | .error e => .error e
      | .ok _ =>
        if (st.speechVersions.filter (fun v => v.id == input.id)).length = 0
        then .error .NOT_FOUND
        else .ok ((), { st with speechVersions :=
          st.speechVersions.filter (fun v => !(v.id == input.id)) }) := by
  unfold deleteSpeechVersion
  rw [hval]
  rcases hg : getOwnedSpeechVersion st input.id input.speechId u.id with e | v
  · show (getOwnedSpeechVersion st input.id input.speechId u.id >>= _) = _
    rw [hg]
    rfl
  · show (getOwnedSpeechVersion st input.id input.speechId u.id >>= _) = _
    rw [hg]
    rfl

theorem listSpeechVersions_eq (st : Store) (u : User)
    (input : ListSpeechVersionsInput)
    (hval : validListSpeechVersions input = true) :
    listSpeechVersions st (some u) input =
      match getOwnedSpeech st input.speechId u.id with
      | .error e => .error e
      | .ok _ =>
        (let versions := st.speechVersions.filter (fun v =>
          if input.preferredOnly.getD false
          then v.speechId == input.speechId && v.isPreferred == true
          else v.speechId == input.speechId)
         .ok ({ items := versions, total := versions.length }, st)) := by
  unfold listSpeechVersions
  rw [hval]
  rcases hg : getOwnedSpeech st input.speechId u.id with e | s
  · show (getOwnedSpeech st input.speechId u.id >>= _) = _
    rw [hg]
    rfl
  · show (getOwnedSpeech st input.speechId u.id >>= _) = _
    rw [hg]
    rfl

/-! ## Concrete fixtures used to instantiate theorems -/

/-- A concrete owned speech row. -/
def demoSpeech : Speech :=
  { id := "sp1", userId := "u1", title := "Wedding Toast",
    occasion := some "wedding", audience := none, language := none,
    notes := none, createdAt := 100, updatedAt := 100 }

/-- A concrete version row of `demoSpeech`. -/
def demoVersion : SpeechVersion :=
  { id := "v1", speechId := "sp1", versionLabel := none, tone := none,
    targetDurationMinutes := none, scriptText := "Hello...",
    isPreferred := false, createdAt := 150 }

/-- A concrete preferred version row of `demoSpeech`. -/
def demoVersionPreferred : SpeechVersion :=
  { id := "v2", speechId := "sp1", versionLabel := some "formal", tone := none,
    targetDurationMinutes := some 5, scriptText := "Dear guests...",
    isPreferred := true, createdAt := 160 }

/-- A concrete store with one speech and its two versions. -/
def demoStore : Store :=
  { speeches := [demoSpeech], speechVersions := [demoVersion, demoVersionPreferred] }

/-- The concrete owner of `demoSpeech`. -/
def demoUser : User := { id := "u1" }

/-! ## Claim theorems -/

/-- C1: the Ownership Guard satisfies its contract.  `getOwnedSpeech`
(`requireOwnedSpeech`) raises `NOT_FOUND` exactly when no stored Speech row
has both `id = speechId` and `userId = userId`, and otherwise returns such a
row; `getOwnedSpeechVersion` (`requireOwnedSpeechVersion`) first runs the
speech guard (propagating its error) and then raises `NOT_FOUND` exactly
when no stored SpeechVersion row has both `id = versionId` and
`speechId = speechId`, otherwise returning such a version row.  Both guards
are read-only by construction: they take the store and return only a row. -/
theorem ownership_guard_contract (st : Store) (vid sid uid : String) :
    (getOwnedSpeech st sid uid = .error .NOT_FOUND ↔
      ∀ s ∈ st.speeches, ¬(s.id = sid ∧ s.userId = uid)) ∧
    (∀ s, getOwnedSpeech st sid uid = .ok s →
      s ∈ st.speeches ∧ s.id = sid ∧ s.userId = uid) ∧
    ((∃ s, getOwnedSpeech st sid uid = .ok s) ↔
      ∃ s ∈ st.speeches, s.id = sid ∧ s.userId = uid) ∧
    (∀ e, getOwnedSpeech st sid uid = .error e →
      e = .NOT_FOUND ∧ getOwnedSpeechVersion st vid sid uid = .error e) ∧
    ((∃ s, getOwnedSpeech st sid uid = .ok s) →
      (getOwnedSpeechVersion st vid sid uid = .error .NOT_FOUND ↔
        ∀ v ∈ st.speechVersions, ¬(v.id = vid ∧ v.speechId = sid))) ∧
    (∀ v, getOwnedSpeechVersion st vid sid uid = .ok v →
      v ∈ st.speechVersions ∧ v.id = vid ∧ v.speechId = sid) ∧
    ((∃ v, getOwnedSpeechVersion st vid sid uid = .ok v) ↔
      (∃ s ∈ st.speeches, s.id = sid ∧ s.userId = uid) ∧
        ∃ v ∈ st.speechVersions, v.id = vid ∧ v.speechId = sid) :=
  ⟨getOwnedSpeech_notFound_iff st sid uid,
   fun s => getOwnedSpeech_ok st sid uid s,
   getOwnedSpeech_ok_iff st sid uid,
   fun e he => ⟨getOwnedSpeech_error_elim st sid uid e he,
     getOwnedSpeechVersion_parent_error st vid sid uid e he⟩,
   fun hp => getOwnedSpeechVersion_notFound_iff st vid sid uid hp,
   fun v => getOwnedSpeechVersion_ok st vid sid uid v,
   getOwnedSpeechVersion_ok_iff st vid sid uid⟩

/-- C2: for every authenticated caller and store, `listSpeeches` succeeds
without touching the store and returns exactly the Speech rows whose
`userId` is the caller's id, with a count; in particular no returned row has
a different `userId`. -/
theorem listSpeeches_exactly_owned (st : Store) (u : User) :
    ∃ out, listSpeeches st (some u) = .ok (out, st) ∧
      (∀ s ∈ out.items, s.userId = u.id) ∧
      (∀ s ∈ out.items, s ∈ st.speeches) ∧
      (∀ s ∈ st.speeches, s.userId = u.id → s ∈ out.items) ∧
      out.total = out.items.length := by
  refine ⟨{ items := st.speeches.filter (fun s => s.userId == u.id),
            total := (st.speeches.filter (fun s => s.userId == u.id)).length },
          rfl, ?_, ?_, ?_, rfl⟩
  · intro s hs
    simpa using List.of_mem_filter hs
  · intro s hs
    exact List.mem_of_mem_filter hs
  · intro s hs h
    exact List.mem_filter.mpr ⟨hs, by simpa⟩

/-- C3: for every schema-valid `createSpeech` input (title of length at
least 1) and every signed-in caller, the call succeeds, and the returned
speech row carries the freshly generated identifier `randomUUID r`, which
is non-empty, has `createdAt = updatedAt` (both are the single `new Date()`
of the handler), and has `userId` equal to the caller's id; the row is
appended to the store. -/
theorem createSpeech_fresh_row (st : Store) (u : User) (r now : Nat)
    (input : CreateSpeechInput) (hval : validCreateSpeech input = true) :
    ∃ sp st2, createSpeech st (some u) r now input = .ok (sp, st2) ∧
      sp.id = randomUUID r ∧ sp.id ≠ "" ∧
      sp.createdAt = sp.updatedAt ∧ sp.userId = u.id ∧
      st2.speeches = st.speeches ++ [sp] ∧
      st2.speechVersions = st.speechVersions := by
  rw [createSpeech_eq st u r now input hval]
  exact ⟨_, _, rfl, rfl, randomUUID_ne_empty r, rfl, rfl, rfl, rfl⟩

/-- C3 at a concrete input: creating "Team Meeting" in the demo store. -/
theorem createSpeech_fresh_row_witness :
    ∃ sp st2, createSpeech demoStore (some demoUser) 7 200
        { title := "Team Meeting" } = .ok (sp, st2) ∧
      sp.id = randomUUID 7 ∧ sp.id ≠ "" ∧
      sp.createdAt = sp.updatedAt ∧ sp.userId = demoUser.id ∧
      st2.speeches = demoStore.speeches ++ [sp] ∧
      st2.speechVersions = demoStore.speechVersions :=
  createSpeech_fresh_row demoStore demoUser 7 200 { title := "Team Meeting" }
    (by decide)

/-- C4: when the owning caller updates a speech with a schema-valid input
(at least one mutable field) at a time `now` later than the row's
`updatedAt`, the call succeeds; every stored row whose id differs from the
target is unchanged, and every row with the target id afterwards holds the
supplied value for each field present in the input, keeps each omitted
field (and always `id`, `userId`, `createdAt`) unchanged, and has its
`updatedAt` refreshed to `now`, strictly above its previous value.  The
versions table is untouched. -/
theorem updateSpeech_frame (st : Store) (u : User) (now : Nat)
    (input : UpdateSpeechInput)
    (hval : validUpdateSpeech input = true)
    (hown : ∃ s ∈ st.speeches, s.id = input.id ∧ s.userId = u.id)
    (hclk : ∀ s ∈ st.speeches, s.id = input.id → s.updatedAt < now) :
    ∃ out st2, updateSpeech st (some u) now input = .ok (out, st2) ∧
      st2.speechVersions = st.speechVersions ∧
      st2.speeches.length = st.speeches.length ∧
      (∀ i : Nat, ∀ hi : i < st.speeches.length,
        ∀ hi2 : i < st2.speeches.length,
        (st.speeches.get ⟨i, hi⟩).id ≠ input.id →
          st2.speeches.get ⟨i, hi2⟩ = st.speeches.get ⟨i, hi⟩) ∧
      (∀ i : Nat, ∀ hi : i < st.speeches.length,
        ∀ hi2 : i < st2.speeches.length,
        (st.speeches.get ⟨i, hi⟩).id = input.id →
          ((st2.speeches.get ⟨i, hi2⟩).id = (st.speeches.get ⟨i, hi⟩).id ∧
           (st2.speeches.get ⟨i, hi2⟩).userId =
             (st.speeches.get ⟨i, hi⟩).userId ∧
           (st2.speeches.get ⟨i, hi2⟩).createdAt =
             (st.speeches.get ⟨i, hi⟩).createdAt) ∧
          ((∀ x, input.title = some x →
              (st2.speeches.get ⟨i, hi2⟩).title = x) ∧
           (input.title = none →
              (st2.speeches.get ⟨i, hi2⟩).title =
                (st.speeches.get ⟨i, hi⟩).title)) ∧
          ((∀ x, input.occasion = some x →
              (st2.speeches.get ⟨i, hi2⟩).occasion = some x) ∧
           (input.occasion = none →
              (st2.speeches.get ⟨i, hi2⟩).occasion =
                (st.speeches.get ⟨i, hi⟩).occasion)) ∧
          ((∀ x, input.audience = some x →
              (st2.speeches.get ⟨i, hi2⟩).audience = some x) ∧
           (input.audience = none →
              (st2.speeches.get ⟨i, hi2⟩).audience =
                (st.speeches.get ⟨i, hi⟩).audience)) ∧
          ((∀ x, input.language = some x →
              (st2.speeches.get ⟨i, hi2⟩).language = some x) ∧
           (input.language = none →
              (st2.speeches.get ⟨i, hi2⟩).language =
                (st.speeches.get ⟨i, hi⟩).language)) ∧
          ((∀ x, input.notes = some x →
              (st2.speeches.get ⟨i, hi2⟩).notes = some x) ∧
           (input.notes = none →
              (st2.speeches.get ⟨i, hi2⟩).notes =
                (st.speeches.get ⟨i, hi⟩).notes)) ∧
          (st2.speeches.get ⟨i, hi2⟩).updatedAt = now ∧
          (st.speeches.get ⟨i, hi⟩).updatedAt <
            (st2.speeches.get ⟨i, hi2⟩).updatedAt) := by
  obtain ⟨sg, hsg⟩ := (getOwnedSpeech_ok_iff st input.id u.id).mpr hown
  rw [updateSpeech_eq st u now input hval, hsg]
  refine ⟨_, _, rfl, rfl, List.length_map _ _, ?_, ?_⟩
  · intro i hi hi2 hne
    simp only [List.get_eq_getElem, List.getElem_map]
    rw [if_neg]
    simpa using hne
  · intro i hi hi2 heq
    simp only [List.get_eq_getElem, List.getElem_map]
    rw [if_pos (by simpa using heq)]
    have hlt : (st.speeches.get ⟨i, hi⟩).updatedAt < now :=
      hclk _ (List.get_mem st.speeches i hi) heq
    simp only [List.get_eq_getElem] at hlt
    refine ⟨⟨rfl, rfl, rfl⟩, ⟨?_, ?_⟩, ⟨?_, ?_⟩, ⟨?_, ?_⟩, ⟨?_, ?_⟩,
      ⟨?_, ?_⟩, ?_, ?_⟩ <;>
      first
        | (intro x hx; simp [applySpeechSet, hx])
        | (intro hx; simp [applySpeechSet, hx])
        | (simp only [applySpeechSet]; exact hlt)
        | simp [applySpeechSet]

/-- A concrete `updateSpeech` input supplying only a new title. -/
def demoRetitle : UpdateSpeechInput := { id := "sp1", title := some "New Title" }

/-- C4 at a concrete input: retitling `demoSpeech` at time 200. -/
theorem updateSpeech_frame_witness :
    ∃ out st2, updateSpeech demoStore (some demoUser) 200
        demoRetitle = .ok (out, st2) ∧
      st2.speechVersions = demoStore.speechVersions ∧
      st2.speeches.length = demoStore.speeches.length ∧
      (∀ i : Nat, ∀ hi : i < demoStore.speeches.length,
        ∀ hi2 : i < st2.speeches.length,
        (demoStore.speeches.get ⟨i, hi⟩).id ≠
            demoRetitle.id →
          st2.speeches.get ⟨i, hi2⟩ = demoStore.speeches.get ⟨i, hi⟩) ∧
      (∀ i : Nat, ∀ hi : i < demoStore.speeches.length,
        ∀ hi2 : i < st2.speeches.length,
        (demoStore.speeches.get ⟨i, hi⟩).id =
            demoRetitle.id →
          ((st2.speeches.get ⟨i, hi2⟩).id =
             (demoStore.speeches.get ⟨i, hi⟩).id ∧
           (st2.speeches.get ⟨i, hi2⟩).userId =
             (demoStore.speeches.get ⟨i, hi⟩).userId ∧
           (st2.speeches.get ⟨i, hi2⟩).createdAt =
             (demoStore.speeches.get ⟨i, hi⟩).createdAt) ∧
          ((∀ x, demoRetitle.title = some x →
              (st2.speeches.get ⟨i, hi2⟩).title = x) ∧
           (demoRetitle.title = none →
              (st2.speeches.get ⟨i, hi2⟩).title =
                (demoStore.speeches.get ⟨i, hi⟩).title)) ∧
          ((∀ x, demoRetitle.occasion = some x →
              (st2.speeches.get ⟨i, hi2⟩).occasion = some x) ∧
           (demoRetitle.occasion = none →
              (st2.speeches.get ⟨i, hi2⟩).occasion =
                (demoStore.speeches.get ⟨i, hi⟩).occasion)) ∧
          ((∀ x, demoRetitle.audience = some x →
              (st2.speeches.get ⟨i, hi2⟩).audience = some x) ∧
           (demoRetitle.audience = none →
              (st2.speeches.get ⟨i, hi2⟩).audience =
                (demoStore.speeches.get ⟨i, hi⟩).audience)) ∧
          ((∀ x, demoRetitle.language = some x →
              (st2.speeches.get ⟨i, hi2⟩).language = some x) ∧
           (demoRetitle.language = none →
              (st2.speeches.get ⟨i, hi2⟩).language =
                (demoStore.speeches.get ⟨i, hi⟩).language)) ∧
          ((∀ x, demoRetitle.notes = some x →
              (st2.speeches.get ⟨i, hi2⟩).notes = some x) ∧
           (demoRetitle.notes = none →
              (st2.speeches.get ⟨i, hi2⟩).notes =
                (demoStore.speeches.get ⟨i, hi⟩).notes)) ∧
          (st2.speeches.get ⟨i, hi2⟩).updatedAt = 200 ∧
          (demoStore.speeches.get ⟨i, hi⟩).updatedAt <
            (st2.speeches.get ⟨i, hi2⟩).updatedAt) :=
  updateSpeech_frame demoStore demoUser 200 demoRetitle
    (by decide) (by decide) (by decide)

/-- C5: an `updateSpeech` or `updateSpeechVersion` input in which none of
the mutable fields is present fails the schema's `.refine` and is rejected
with the validation error `BAD_REQUEST` for every store and every caller
(even an absent one): the result does not depend on the store or the
caller, so no ownership-guard read and no persistence call takes place,
and no modified store is produced. -/
theorem update_zero_mutable_fields_rejected (st : Store)
    (user? : Option User) (now : Nat)
    (i1 : UpdateSpeechInput) (i2 : UpdateSpeechVersionInput)
    (h1 : i1.title = none ∧ i1.occasion = none ∧ i1.audience = none ∧
      i1.language = none ∧ i1.notes = none)
    (h2 : i2.versionLabel = none ∧ i2.tone = none ∧
      i2.targetDurationMinutes = none ∧ i2.scriptText = none ∧
      i2.isPreferred = none) :
    updateSpeech st user? now i1 = .error .BAD_REQUEST ∧
    updateSpeechVersion st user? i2 = .error .BAD_REQUEST := by
  obtain ⟨ha, hb, hc, hd, he⟩ := h1
  obtain ⟨hf, hg, hh, hi, hj⟩ := h2
  constructor
  · have hv : validUpdateSpeech i1 = false := by
      simp [validUpdateSpeech, ha, hb, hc, hd, he]
    unfold updateSpeech
    rw [hv]
    rfl
  · have hv : validUpdateSpeechVersion i2 = false := by
      simp [validUpdateSpeechVersion, hf, hg, hh, hi, hj]
    unfold updateSpeechVersion
    rw [hv]
    rfl

/-- C5 at a concrete input: id-only update inputs in the demo store, with a
signed-in caller. -/
theorem update_zero_mutable_fields_rejected_witness :
    updateSpeech demoStore (some demoUser) 200 { id := "sp1" } =
        .error .BAD_REQUEST ∧
    updateSpeechVersion demoStore (some demoUser)
        { id := "v1", speechId := "sp1" } = .error .BAD_REQUEST :=
  update_zero_mutable_fields_rejected demoStore (some demoUser) 200
    { id := "sp1" } { id := "v1", speechId := "sp1" }
    ⟨rfl, rfl, rfl, rfl, rfl⟩ ⟨rfl, rfl, rfl, rfl, rfl⟩

/-- A store in which every version of "sp1" is preferred. -/
def demoStoreAllPreferred : Store :=
  { speeches := [demoSpeech], speechVersions := [demoVersionPreferred] }

/-- C6 counterexample: in `demoStoreAllPreferred`, whose only version of
"sp1" is preferred, `listSpeechVersions` with `preferredOnly = true` and
with `preferredOnly = false` return the same item list, so the former is
not a STRICT subset of the latter. -/
theorem listSpeechVersions_strict_subset_cex :
    ∃ o1 o2,
      listSpeechVersions demoStoreAllPreferred (some demoUser)
        { speechId := "sp1", preferredOnly := some true } =
          .ok (o1, demoStoreAllPreferred) ∧
      listSpeechVersions demoStoreAllPreferred (some demoUser)
        { speechId := "sp1", preferredOnly := some false } =
          .ok (o2, demoStoreAllPreferred) ∧
      o1.items = o2.items :=
  ⟨{ items := [demoVersionPreferred], total := 1 },
   { items := [demoVersionPreferred], total := 1 }, rfl, rfl, rfl⟩

/-- C6 amended: for every owned `speechId`, the item list returned with
`preferredOnly = true` is a sublist — a subset, though not necessarily a
strict one — of the item list returned with `preferredOnly = false`, and
contains exactly the versions of that speech whose `isPreferred` flag is
true (the two coincide when every version of the speech is preferred). -/
theorem listSpeechVersions_preferred_subset (st : Store) (u : User)
    (sid : String)
    (hsid : validListSpeechVersions
      { speechId := sid, preferredOnly := some true } = true)
    (hown : ∃ s ∈ st.speeches, s.id = sid ∧ s.userId = u.id) :
    ∃ o1 o2,
      listSpeechVersions st (some u)
        { speechId := sid, preferredOnly := some true } = .ok (o1, st) ∧
      listSpeechVersions st (some u)
        { speechId := sid, preferredOnly := some false } = .ok (o2, st) ∧
      o1.items = o2.items.filter (fun v => v.isPreferred) ∧
      List.Sublist o1.items o2.items ∧
      (∀ v, v ∈ o1.items ↔
        v ∈ st.speechVersions ∧ v.speechId = sid ∧ v.isPreferred = true) ∧
      (∀ v, v ∈ o2.items ↔ v ∈ st.speechVersions ∧ v.speechId = sid) := by
  obtain ⟨sg, hsg⟩ := (getOwnedSpeech_ok_iff st sid u.id).mpr hown
  rw [listSpeechVersions_eq st u { speechId := sid, preferredOnly := some true }
        hsid,
      listSpeechVersions_eq st u { speechId := sid, preferredOnly := some false }
        hsid,
      show getOwnedSpeech st
          ({ speechId := sid, preferredOnly := some true } :
            ListSpeechVersionsInput).speechId u.id = Except.ok sg from hsg]
  refine ⟨_, _, rfl, rfl, ?_, ?_, ?_, ?_⟩
  · show List.filter _ st.speechVersions =
      (List.filter _ st.speechVersions).filter _
    rw [List.filter_filter]
    refine List.filter_congr ?_
    intro v _
    simp [Bool.and_comm]
  · have : (st.speechVersions.filter (fun v =>
        if (some true).getD false
        then v.speechId == sid && v.isPreferred == true
        else v.speechId == sid)) =
        (st.speechVersions.filter (fun v =>
          if (some false).getD false
          then v.speechId == sid && v.isPreferred == true
          else v.speechId == sid)).filter (fun v => v.isPreferred) := by
      rw [List.filter_filter]
      refine List.filter_congr ?_
      intro v _
      simp [Bool.and_comm]
    show List.Sublist (List.filter _ st.speechVersions)
      (List.filter _ st.speechVersions)
    rw [this]
    exact List.filter_sublist _
  · intro v
    show v ∈ List.filter _ st.speechVersions ↔ _
    simp [List.mem_filter]
  · intro v
    show v ∈ List.filter _ st.speechVersions ↔ _
    simp [List.mem_filter]

/-- C6 (amended) at a concrete input: the demo store holds one preferred
and one non-preferred version of "sp1". -/
theorem listSpeechVersions_preferred_subset_witness :
    ∃ o1 o2,
      listSpeechVersions demoStore (some demoUser)
        { speechId := "sp1", preferredOnly := some true } = .ok (o1, demoStore) ∧
      listSpeechVersions demoStore (some demoUser)
        { speechId := "sp1", preferredOnly := some false } =
          .ok (o2, demoStore) ∧
      o1.items = o2.items.filter (fun v => v.isPreferred) ∧
      List.Sublist o1.items o2.items ∧
      (∀ v, v ∈ o1.items ↔
        v ∈ demoStore.speechVersions ∧ v.speechId = "sp1" ∧
          v.isPreferred = true) ∧
      (∀ v, v ∈ o2.items ↔ v ∈ demoStore.speechVersions ∧ v.speechId = "sp1") :=
  listSpeechVersions_preferred_subset demoStore demoUser "sp1"
    (by decide) (by decide)

/-- C7: with the ownership guard satisfied, `deleteSpeechVersion` succeeds,
removes from the store exactly the version rows whose id is the target id
(speeches are untouched), and a second `deleteSpeechVersion` with the same
input on the resulting store fails with `NOT_FOUND`: the operation is not
idempotent. -/
theorem deleteSpeechVersion_not_idempotent (st : Store) (u : User)
    (input : DeleteSpeechVersionInput)
    (hval : validDeleteSpeechVersion input = true)
    (hok : ∃ v, getOwnedSpeechVersion st input.id input.speechId u.id = .ok v) :
    ∃ st2, deleteSpeechVersion st (some u) input = .ok ((), st2) ∧
      st2.speeches = st.speeches ∧
      st2.speechVersions =
        st.speechVersions.filter (fun v => !(v.id == input.id)) ∧
      (∀ v ∈ st2.speechVersions, v.id ≠ input.id) ∧
      deleteSpeechVersion st2 (some u) input = .error .NOT_FOUND := by
  obtain ⟨v0, hv0⟩ := hok
  obtain ⟨hv0m, hv0id, hv0sid⟩ :=
    getOwnedSpeechVersion_ok st input.id input.speechId u.id v0 hv0
  have hne : (st.speechVersions.filter
      (fun v => v.id == input.id)).length ≠ 0 := by
    intro h0
    have hnil := List.eq_nil_of_length_eq_zero h0
    have : v0 ∈ st.speechVersions.filter (fun v => v.id == input.id) :=
      List.mem_filter.mpr ⟨hv0m, by simp [hv0id]⟩
    rw [hnil] at this
    exact absurd this (List.not_mem_nil v0)
  refine ⟨{ st with speechVersions :=
      st.speechVersions.filter (fun v => !(v.id == input.id)) },
    ?_, rfl, rfl, ?_, ?_⟩
  · rw [deleteSpeechVersion_eq st u input hval, hv0]
    show (if (st.speechVersions.filter
        (fun v => v.id == input.id)).length = 0 then _ else _) = _
    rw [if_neg hne]
  · intro v hv hvid
    have := List.of_mem_filter hv
    simp [hvid] at this
  · have hpar : ∃ s, getOwnedSpeech
        { st with speechVersions :=
          st.speechVersions.filter (fun v => !(v.id == input.id)) }
        input.speechId u.id = .ok s := by
      obtain ⟨s, hs⟩ :=
        getOwnedSpeechVersion_ok_parent st input.id input.speechId u.id v0 hv0
      exact ⟨s, hs⟩
    have hguard : getOwnedSpeechVersion
        { st with speechVersions :=
          st.speechVersions.filter (fun v => !(v.id == input.id)) }
        input.id input.speechId u.id = .error .NOT_FOUND := by
      rw [getOwnedSpeechVersion_notFound_iff _ input.id input.speechId u.id
        hpar]
      intro v hv hab
      have := List.of_mem_filter hv
      simp [hab.1] at this
    rw [deleteSpeechVersion_eq _ u input hval, hguard]

/-- The concrete delete input targeting `demoVersion`. -/
def demoDeleteInput : DeleteSpeechVersionInput := { id := "v1", speechId := "sp1" }

/-- C7 at a concrete input: deleting `demoVersion` twice. -/
theorem deleteSpeechVersion_not_idempotent_witness :
    ∃ st2, deleteSpeechVersion demoStore (some demoUser) demoDeleteInput =
        .ok ((), st2) ∧
      st2.speeches = demoStore.speeches ∧
      st2.speechVersions = demoStore.speechVersions.filter
        (fun v => !(v.id == demoDeleteInput.id)) ∧
      (∀ v ∈ st2.speechVersions, v.id ≠ demoDeleteInput.id) ∧
      deleteSpeechVersion st2 (some demoUser) demoDeleteInput =
        .error .NOT_FOUND :=
  deleteSpeechVersion_not_idempotent demoStore demoUser demoDeleteInput
    (by decide) ⟨demoVersion, rfl⟩

/-- C8 counterexample: the claim quantifies over EVERY input, but input
shape validation runs before the handler, so an unauthenticated
`updateSpeech` call whose input has zero mutable fields fails with the
validation code `BAD_REQUEST`, not with `UNAUTHORIZED`. -/
theorem unauthenticated_every_input_cex :
    updateSpeech demoStore none 200 { id := "sp1" } = .error .BAD_REQUEST ∧
      ErrorCode.BAD_REQUEST ≠ ErrorCode.UNAUTHORIZED := by
  constructor
  · rfl
  · intro h
    exact absurd h (by decide)

/-- C8 amended: for every one of the seven operations, every SHAPE-VALID
input, and every store, a call with no authenticated caller fails with
`UNAUTHORIZED`; the result does not depend on the store, so no persistence
read or write happens, and no modified store is produced. -/
theorem unauthenticated_rejected (st : Store) (r now : Nat)
    (i1 : CreateSpeechInput) (i2 : UpdateSpeechInput)
    (i3 : CreateSpeechVersionInput) (i4 : UpdateSpeechVersionInput)
    (i5 : DeleteSpeechVersionInput) (i6 : ListSpeechVersionsInput)
    (h1 : validCreateSpeech i1 = true) (h2 : validUpdateSpeech i2 = true)
    (h3 : validCreateSpeechVersion i3 = true)
    (h4 : validUpdateSpeechVersion i4 = true)
    (h5 : validDeleteSpeechVersion i5 = true)
    (h6 : validListSpeechVersions i6 = true) :
    createSpeech st none r now i1 = .error .UNAUTHORIZED ∧
    updateSpeech st none now i2 = .error .UNAUTHORIZED ∧
    listSpeeches st none = .error .UNAUTHORIZED ∧
    createSpeechVersion st none r now i3 = .error .UNAUTHORIZED ∧
    updateSpeechVersion st none i4 = .error .UNAUTHORIZED ∧
    deleteSpeechVersion st none i5 = .error .UNAUTHORIZED ∧
    listSpeechVersions st none i6 = .error .UNAUTHORIZED := by
  refine ⟨?_, ?_, rfl, ?_, ?_, ?_, ?_⟩
  · unfold createSpeech
    rw [h1]
    rfl
  · unfold updateSpeech
    rw [h2]
    rfl
  · unfold createSpeechVersion
    rw [h3]
    rfl
  · unfold updateSpeechVersion
    rw [h4]
    rfl
  · unfold deleteSpeechVersion
    rw [h5]
    rfl
  · unfold listSpeechVersions
    rw [h6]
    rfl

/-- C8 (amended) at concrete shape-valid inputs against the demo store. -/
theorem unauthenticated_rejected_witness :
    createSpeech demoStore none 7 200 { title := "Team Meeting" } =
        .error .UNAUTHORIZED ∧
    updateSpeech demoStore none 200 demoRetitle = .error .UNAUTHORIZED ∧
    listSpeeches demoStore none = .error .UNAUTHORIZED ∧
    createSpeechVersion demoStore none 7 200
        { speechId := "sp1", scriptText := "Hello..." } =
          .error .UNAUTHORIZED ∧
    updateSpeechVersion demoStore none
        { id := "v1", speechId := "sp1", isPreferred := some true } =
          .error .UNAUTHORIZED ∧
    deleteSpeechVersion demoStore none demoDeleteInput =
        .error .UNAUTHORIZED ∧
    listSpeechVersions demoStore none
        { speechId := "sp1", preferredOnly := some true } =
          .error .UNAUTHORIZED :=
  unauthenticated_rejected demoStore 7 200 { title := "Team Meeting" }
    demoRetitle { speechId := "sp1", scriptText := "Hello..." }
    { id := "v1", speechId := "sp1", isPreferred := some true }
    demoDeleteInput { speechId := "sp1", preferredOnly := some true }
    (by decide) (by decide) (by decide) (by decide) (by decide) (by decide)

/-- C9: for every operation, the input schema is evaluated before the
handler body runs: a call whose input fails shape validation is rejected
with the validation code `BAD_REQUEST` for EVERY caller — in particular an
unauthenticated call with such an input (for example `updateSpeech` with
zero mutable fields) raises `BAD_REQUEST` rather than `UNAUTHORIZED` — and
the `UNAUTHORIZED` check fires only for shape-valid inputs: with no caller
and a shape-valid input each of the seven operations fails `UNAUTHORIZED`
(the `listSpeeches` schema `z.object({}).optional()` accepts every input,
so every `listSpeeches` input is shape-valid). -/
theorem validation_precedes_auth (st : Store) (r now : Nat)
    (user? : Option User) (i1 : CreateSpeechInput) (i2 : UpdateSpeechInput)
    (i3 : CreateSpeechVersionInput) (i4 : UpdateSpeechVersionInput)
    (i5 : DeleteSpeechVersionInput) (i6 : ListSpeechVersionsInput) :
    (validCreateSpeech i1 = false →
      createSpeech st user? r now i1 = .error .BAD_REQUEST) ∧
    (validCreateSpeech i1 = true →
      createSpeech st none r now i1 = .error .UNAUTHORIZED) ∧
    (validUpdateSpeech i2 = false →
      updateSpeech st user? now i2 = .error .BAD_REQUEST) ∧
    (validUpdateSpeech i2 = true →
      updateSpeech st none now i2 = .error .UNAUTHORIZED) ∧
    (validCreateSpeechVersion i3 = false →
      createSpeechVersion st user? r now i3 = .error .BAD_REQUEST) ∧
    (validCreateSpeechVersion i3 = true →
      createSpeechVersion st none r now i3 = .error .UNAUTHORIZED) ∧
    (validUpdateSpeechVersion i4 = false →
      updateSpeechVersion st user? i4 = .error .BAD_REQUEST) ∧
    (validUpdateSpeechVersion i4 = true →
      updateSpeechVersion st none i4 = .error .UNAUTHORIZED) ∧
    (validDeleteSpeechVersion i5 = false →
      deleteSpeechVersion st user? i5 = .error .BAD_REQUEST) ∧
    (validDeleteSpeechVersion i5 = true →
      deleteSpeechVersion st none i5 = .error .UNAUTHORIZED) ∧
    (validListSpeechVersions i6 = false →
      listSpeechVersions st user? i6 = .error .BAD_REQUEST) ∧
    (validListSpeechVersions i6 = true →
      listSpeechVersions st none i6 = .error .UNAUTHORIZED) ∧
    listSpeeches st none = .error .UNAUTHORIZED := by
  refine ⟨?_, ?_, ?_, ?_, ?_, ?_, ?_, ?_, ?_, ?_, ?_, ?_, rfl⟩ <;> intro h
  · unfold createSpeech
    rw [h]
    rfl
  · unfold createSpeech
    rw [h]
    rfl
  · unfold updateSpeech
    rw [h]
    rfl
  · unfold updateSpeech
    rw [h]
    rfl
  · unfold createSpeechVersion
    rw [h]
    rfl
  · unfold createSpeechVersion
    rw [h]
    rfl
  · unfold updateSpeechVersion
    rw [h]
    rfl
  · unfold updateSpeechVersion
    rw [h]
    rfl
  · unfold deleteSpeechVersion
    rw [h]
    rfl
  · unfold deleteSpeechVersion
    rw [h]
    rfl
  · unfold listSpeechVersions
    rw [h]
    rfl
  · unfold listSpeechVersions
    rw [h]
    rfl

/-- C10: whenever `listSpeeches` or `listSpeechVersions` succeeds, the
returned `total` equals the length of the returned `items` list. -/
theorem list_total_eq_items_length (st : Store) (user? : Option User)
    (input : ListSpeechVersionsInput) :
    (∀ out st2, listSpeeches st user? = .ok (out, st2) →
      out.total = out.items.length) ∧
    (∀ out st2, listSpeechVersions st user? input = .ok (out, st2) →
      out.total = out.items.length) := by
  constructor
  · intro out st2 h
    rcases user? with _ | u
    · have h3 : (Except.error ErrorCode.UNAUTHORIZED :
          Except ErrorCode (ListResult Speech × Store)) =
            Except.ok (out, st2) := h
      exact absurd h3 (by simp)
    · have h2 : Except.ok
          (({ items := st.speeches.filter (fun s => s.userId == u.id),
              total := (st.speeches.filter
                (fun s => s.userId == u.id)).length } : ListResult Speech),
            st) = Except.ok (out, st2) := h
      obtain ⟨h3, -⟩ : _ ∧ st = st2 := by simpa using h2
      rw [← h3]
  · intro out st2 h
    rcases hv : validListSpeechVersions input with _ | _
    · unfold listSpeechVersions at h
      rw [hv] at h
      exact absurd h (by simp)
    · rcases user? with _ | u
      · unfold listSpeechVersions at h
        rw [hv] at h
        have h3 : (Except.error ErrorCode.UNAUTHORIZED :
            Except ErrorCode (ListResult SpeechVersion × Store)) =
              Except.ok (out, st2) := h
        exact absurd h3 (by simp)
      · rw [listSpeechVersions_eq st u input hv] at h
        rcases hg : getOwnedSpeech st input.speechId u.id with e | s
        · rw [hg] at h
          exact absurd h (by simp)
        · rw [hg] at h
          have h2 : Except.ok
              (({ items := st.speechVersions.filter (fun v =>
                    if input.preferredOnly.getD false
                    then v.speechId == input.speechId && v.isPreferred == true
                    else v.speechId == input.speechId),
                  total := (st.speechVersions.filter (fun v =>
                    if input.preferredOnly.getD false
                    then v.speechId == input.speechId && v.isPreferred == true
                    else v.speechId == input.speechId)).length } :
                ListResult SpeechVersion), st) = Except.ok (out, st2) := h
          obtain ⟨h3, -⟩ : _ ∧ st = st2 := by simpa using h2
          rw [← h3]

end SpeechWriter
